import Mathlib

/-!
Verification of the roslibpy ROS Bridge communication core
(`src/roslibpy/comm.py` and `src/roslibpy/comm/pngcompression.py`)
against its natural-language specification.

The Python code is shallowly embedded: Python dicts become association
lists, exceptions become an `error` field carried alongside the mutated
state (Python mutations persist across a raise), and externally observable
actions (sending a frame, invoking a stored callback, emitting on the
event channel, logging an exception) become entries of an effect trace.
-/

/-- Python values stored in a `Message`, as far as the protocol core
inspects them: it reads `op` / `topic` / `service` as strings (dict keys),
tests `message['result'] is False` (a `bool` identity test), and passes
every other payload value through opaquely. `pyobj` stands for any other
Python value — in particular one that is *not* JSON-serializable, on which
`json.dumps` raises `TypeError`. (Nested JSON arrays/objects are folded
into the opaque case: the protocol core never looks inside a payload.) -/
inductive JsonValue where
  | null : JsonValue
  | bool (b : Bool) : JsonValue
  | num (n : Int) : JsonValue
  | str (s : String) : JsonValue
  | pyobj (tag : String) : JsonValue
  deriving Repr, DecidableEq

instance : BEq JsonValue := instBEqOfDecidableEq

/-- A `Message` is an ordered mapping of string keys to values
(`roslibpy.Message`, a `UserDict`). -/
def Message := List (String × JsonValue)

instance : DecidableEq Message :=
  inferInstanceAs (DecidableEq (List (String × JsonValue)))

instance : Repr Message :=
  inferInstanceAs (Repr (List (String × JsonValue)))

/-- `message[key]` without raising: `some v` when present. First match wins,
as in a Python dict (keys are unique by construction). -/
def msgGet (m : Message) (k : String) : Option JsonValue :=
  (m.find? (fun p => p.1 == k)).map Prod.snd

/-- `key in message`. -/
def msgContains (m : Message) (k : String) : Bool :=
  (msgGet m k).isSome

/-- Python dict lookup `d.get(k, None)` for an association list. -/
def dictGet {α β : Type} [BEq α] (d : List (α × β)) (k : α) : Option β :=
  (d.find? (fun p => p.1 == k)).map Prod.snd

/-- Python dict assignment `d[k] = v`: replace in place when the key
exists, append otherwise (insertion order preserved). -/
def dictSet {α β : Type} [BEq α] (d : List (α × β)) (k : α) (v : β) :
    List (α × β) :=
  if (d.find? (fun p => p.1 == k)).isSome then
    d.map (fun p => if p.1 == k then (p.1, v) else p)
  else
    d ++ [(k, v)]

/-- Python dict deletion `del d[k]`. -/
def dictDel {α β : Type} [BEq α] (d : List (α × β)) (k : α) :
    List (α × β) :=
  d.filter (fun p => !(p.1 == k))

/-- The value handed to a stored service continuation. -/
inductive ServiceResponse where
  | mk (values : JsonValue) : ServiceResponse
  deriving Repr, DecidableEq

/-- An argument with which a stored continuation is invoked:
`callback(ServiceResponse(message.values))` or `errback(message.values)`. -/
inductive CallArg where
  | success (r : ServiceResponse) : CallArg
  | failure (v : JsonValue) : CallArg
  deriving Repr, DecidableEq

/-- Observable effects of one protocol step. Callbacks, errbacks, event
listeners and custom operation handlers are opaque Python callables,
identified here by a `Nat` token. -/
inductive Effect where
  | sentFrame (frame : String) : Effect
  | loggedException (text : String) : Effect
  | invoked (token : Nat) (arg : CallArg) : Effect
  | emitted (channel : JsonValue) (payload : JsonValue) : Effect
  | emittedMessage (channel : JsonValue) (message : Message) : Effect
  | customHandlerRun (token : Nat) (message : Message) : Effect
  | listenerCalled (token : Nat) : Effect
  deriving Repr, DecidableEq

/-- A pending service request: the `(callback, errback)` pair stored in
`self._pending_service_requests[request_id]`. Either may be `None`. -/
structure PendingEntry where
  callback : Option Nat
  errback : Option Nat
  deriving Repr, DecidableEq

/-- A registered message handler: one of the three built-ins installed by
`RosBridgeProtocol.__init__`, or a custom callable added through
`register_message_handlers`. -/
inductive Handler where
  | publishH : Handler
  | serviceResponseH : Handler
  | serviceRequestH : Handler
  | custom (token : Nat) : Handler
  deriving Repr, DecidableEq

/-- Exceptions that the embedded code can raise. -/
inductive PyError where
  | keyError (k : String) : PyError
  | standardError (text : String) : PyError
  | valueError (text : String) : PyError
  | typeError (text : String) : PyError
  | notImplementedError (text : String) : PyError
  deriving Repr, DecidableEq

/-- The mutable state of a `RosBridgeProtocol` instance. -/
structure ProtocolState where
  pending : List (JsonValue × PendingEntry)
  handlers : List (String × Handler)
  deriving Repr, DecidableEq

/-- The state installed by `RosBridgeProtocol.__init__`. -/
def initialProtocolState : ProtocolState :=
  { pending := []
    handlers := [("publish", .publishH),
                 ("service_response", .serviceResponseH),
                 ("call_service", .serviceRequestH)] }

/-- The outcome of running one protocol method: the state after all
mutations (mutations persist even when an exception is raised), the
effect trace, and the exception propagating out, if any. -/
structure StepResult where
  state : ProtocolState
  effects : List Effect
  error : Option PyError
  deriving Repr, DecidableEq

/-- JSON string escaping, as `json.dumps` applies to every string. -/
def jsonEscape (s : String) : String :=
  String.join (s.data.map (fun c =>
    if c = '"' then "\\\""
    else if c = '\\' then "\\\\"
    else if c = '\n' then "\\n"
    else String.singleton c))

/-- Serialize one value, as `json.dumps` does; `none` models the
`TypeError` raised on a non-serializable Python object. -/
def JsonValue.dumps : JsonValue → Option String
  | .null => some "null"
  | .bool true => some "true"
  | .bool false => some "false"
  | .num n => some (toString n)
  | .str s => some ("\"" ++ jsonEscape s ++ "\"")
  | .pyobj _ => none

/-- Serialize the fields of a message, `none` as soon as one value is not
serializable. -/
def dumpsFields : List (String × JsonValue) → Option (List String)
  | [] => some []
  | (k, v) :: rest => do
      let s ← v.dumps
      let rest' ← dumpsFields rest
      pure (("\"" ++ jsonEscape k ++ "\": " ++ s) :: rest')

/-- `json.dumps(dict(message)).encode('utf8')`: `some frame` on success,
`none` when a `TypeError` is raised for a non-serializable value. -/
def jsonDumpsMessage (message : Message) : Option String := do
  let parts ← dumpsFields message
  pure ("\x7b" ++ String.intercalate ", " parts ++ "\x7d")

/-! ## RosBridgeProtocol methods (src/roslibpy/comm.py) -/

/-- `RosBridgeProtocol.send_ros_message` (comm.py lines 29-43).
The whole body is wrapped in `try/except StandardError` (under the
code's Python 2 semantics `TypeError` from `json.dumps` is a
`StandardError`): on failure the exception is logged and swallowed, so no
error ever propagates to the caller. On success the serialized frame is
handed to `sendMessage`. -/
def send_ros_message (st : ProtocolState) (message : Message) : StepResult :=
  match jsonDumpsMessage message with
  | some json_message =>
      { state := st, effects := [.sentFrame json_message], error := none }
  | none =>
      { state := st
        effects := [.loggedException "Failed to send message"]
        error := none }

/-- `RosBridgeProtocol.register_message_handlers` (comm.py lines 45-55):
raises `StandardError` when the operation already has a handler, otherwise
stores the handler. -/
def register_message_handlers (st : ProtocolState) (operation : String)
    (handler : Handler) : StepResult :=
  if (dictGet st.handlers operation).isSome then
    { state := st, effects := []
      error := some (.standardError
        "Only one handler can be registered per operation") }
  else
    { state := { st with handlers := dictSet st.handlers operation handler }
      effects := [], error := none }

/-- `RosBridgeProtocol.send_ros_service_request` (comm.py lines 57-71):
reads `message['id']` (raising `KeyError` when absent), stores the
`(callback, errback)` pair in the pending registry — silently overwriting
any previous entry under the same id — and only then serializes and sends
the frame. A `TypeError` from `json.dumps` is *not* caught here and
propagates after the registry was already mutated. -/
def send_ros_service_request (st : ProtocolState) (message : Message)
    (callback errback : Option Nat) : StepResult :=
  match msgGet message "id" with
  | none => { state := st, effects := [], error := some (.keyError "id") }
  | some request_id =>
      let st' :=
        { st with pending := dictSet st.pending request_id ⟨callback, errback⟩ }
      match jsonDumpsMessage message with
      | some json_message =>
          { state := st', effects := [.sentFrame json_message], error := none }
      | none =>
          { state := st', effects := []
            error := some (.typeError "not JSON serializable") }

/-- `RosBridgeProtocol._handle_publish` (comm.py lines 91-92):
`self.factory.emit(message['topic'], message['msg'])`. -/
def handle_publish (st : ProtocolState) (message : Message) : StepResult :=
  match msgGet message "topic" with
  | none => { state := st, effects := [], error := some (.keyError "topic") }
  | some topic =>
      match msgGet message "msg" with
      | none => { state := st, effects := [], error := some (.keyError "msg") }
      | some payload =>
          { state := st, effects := [.emitted topic payload], error := none }

/-- `RosBridgeProtocol._handle_service_response` (comm.py lines 94-109):
looks up `message['id']` in `_pending_service_requests`; raises
`StandardError` when no entry exists (state untouched); otherwise deletes
the entry and *then* dispatches: if `'result' in message and
message['result'] is False`, calls `errback(message['values'])` (when an
errback was stored), else calls `callback(ServiceResponse(message['values']))`
(when a callback was stored). A `KeyError` on a missing `'values'` field
would be raised after the deletion already happened. -/
def handle_service_response (st : ProtocolState) (message : Message) :
    StepResult :=
  match msgGet message "id" with
  | none => { state := st, effects := [], error := some (.keyError "id") }
  | some request_id =>
      match dictGet st.pending request_id with
      | none =>
          { state := st, effects := []
            error := some (.standardError
              "No handler registered for service request ID") }
      | some entry =>
          let st' := { st with pending := dictDel st.pending request_id }
          if msgGet message "result" == some (.bool false) then
            match entry.errback with
            | none => { state := st', effects := [], error := none }
            | some eb =>
                match msgGet message "values" with
                | none =>
                    { state := st', effects := []
                      error := some (.keyError "values") }
                | some v =>
                    { state := st', effects := [.invoked eb (.failure v)]
                      error := none }
          else
            match entry.callback with
            | none => { state := st', effects := [], error := none }
            | some cb =>
                match msgGet message "values" with
                | none =>
                    { state := st', effects := []
                      error := some (.keyError "values") }
                | some v =>
                    { state := st'
                      effects := [.invoked cb (.success (.mk v))]
                      error := none }

/-- `RosBridgeProtocol._handle_service_request` (comm.py lines 111-115):
raises `ValueError` when `'service' not in message`, otherwise emits the
*full* message on the channel named by `message['service']` — the
`emittedMessage` effect carries the whole message, not just a field. -/
def handle_service_request (st : ProtocolState) (message : Message) :
    StepResult :=
  match msgGet message "service" with
  | none =>
      { state := st, effects := []
        error := some (.valueError
          "Expected service name missing in service request") }
  | some service =>
      { state := st, effects := [.emittedMessage service message]
        error := none }

/-- Run the handler selected for a message, as `handler(message)` does.
Built-in handlers run their embedded bodies; a custom handler is an
external callable, whose invocation is recorded as an effect. -/
def runHandler (h : Handler) (st : ProtocolState) (message : Message) :
    StepResult :=
  match h with
  | .publishH => handle_publish st message
  | .serviceResponseH => handle_service_response st message
  | .serviceRequestH => handle_service_request st message
  | .custom token =>
      { state := st, effects := [.customHandlerRun token message]
        error := none }

/-- Handler lookup `self._message_handlers.get(message['op'], None)`:
the handlers dict is keyed by strings, so a non-string `op` value matches
nothing. -/
def handlerLookup (handlers : List (String × Handler)) (op : JsonValue) :
    Option Handler :=
  match op with
  | .str s => dictGet handlers s
  | _ => none

/-- `RosBridgeProtocol.onMessage` (comm.py lines 80-89), taken after the
transport delivered a frame: a binary frame raises `NotImplementedError`
before any decoding; otherwise `json.loads` (external library) has decoded
the payload into `message`, the handler is looked up under `message['op']`
(a missing `op` key raises `KeyError`), a missing handler raises
`StandardError`, and otherwise exactly that handler is called once. -/
def onMessage (st : ProtocolState) (message : Message) (isBinary : Bool) :
    StepResult :=
  if isBinary then
    { state := st, effects := []
      error := some (.notImplementedError "Add support for binary messages") }
  else
    match msgGet message "op" with
    | none => { state := st, effects := [], error := some (.keyError "op") }
    | some op =>
        match handlerLookup st.handlers op with
        | none =>
            { state := st, effects := []
              error := some (.standardError
                "No handler registered for operation") }
        | some handler => runHandler handler st message

/-- `RosBridgeProtocol.onClose` (comm.py lines 117-118): the body only
logs; the protocol state — including every pending service request — is
left untouched and no stored continuation is invoked. -/
def onClose (st : ProtocolState) : StepResult :=
  { state := st, effects := [], error := none }

/-! ## RosBridgeClientFactory (src/roslibpy/comm.py lines 121-152) -/

/-- One listener registered on an event channel: the callable's token and
whether it was registered via `once` (removed after its first call). -/
structure Listener where
  token : Nat
  oneShot : Bool
  deriving Repr, DecidableEq

/-- The mutable state of a `RosBridgeClientFactory`: the current live
protocol (`self._proto`, `None` when no session is open) and the
event-emitter listener registry inherited from `EventEmitterMixin`. -/
structure FactoryState where
  proto : Option ProtocolState
  listeners : List (String × List Listener)
  deriving Repr, DecidableEq

/-- The factory state after `RosBridgeClientFactory.__init__`:
`self._proto = None`, no listeners. -/
def initialFactoryState : FactoryState :=
  { proto := none, listeners := [] }

/-- The listeners currently registered for a channel. -/
def channelListeners (fs : FactoryState) (channel : String) : List Listener :=
  (dictGet fs.listeners channel).getD []

/-- Modelled from the spec: `EventEmitterMixin.once` — the event-emitter
module is imported by comm.py but is not among the given sources. Spec
§4.3: "`once(channel, callback)` adds a one-shot listener removed
immediately after its first invocation"; listeners accumulate in
registration order. -/
def once (fs : FactoryState) (channel : String) (token : Nat) : FactoryState :=
  { fs with
    listeners := dictSet fs.listeners channel
      (channelListeners fs channel ++ [⟨token, true⟩]) }

/-- Modelled from the spec: `EventEmitterMixin.emit` — spec §4.3: "invokes
all currently registered listeners for that channel, in registration
order"; one-shot listeners are "removed immediately after [their] first
invocation"; "emitting to a channel with no listeners is a no-op". -/
def emitChannel (fs : FactoryState) (channel : String) :
    FactoryState × List Effect :=
  let ls := channelListeners fs channel
  ({ fs with
     listeners := dictSet fs.listeners channel
       (ls.filter (fun l => !l.oneShot)) },
   ls.map (fun l => .listenerCalled l.token))

/-- `RosBridgeClientFactory.on_ready` (comm.py lines 130-134): when
`self._proto` is set the callback is invoked immediately with it;
otherwise it is queued with `self.once('ready', callback)`. -/
def on_ready (fs : FactoryState) (token : Nat) : FactoryState × List Effect :=
  match fs.proto with
  | some _ => (fs, [.listenerCalled token])
  | none => (once fs "ready" token, [])

/-- `RosBridgeClientFactory.ready` (comm.py lines 136-138), called from
`RosBridgeProtocol.onOpen`: sets `self._proto = proto`, then
`self.emit('ready', proto)`. -/
def ready (fs : FactoryState) (proto : ProtocolState) :
    FactoryState × List Effect :=
  emitChannel { fs with proto := some proto } "ready"

/-- `RosBridgeClientFactory.clientConnectionLost` (comm.py lines 143-146):
logs, delegates to `ReconnectingClientFactory` (external: schedules a
reconnect attempt), and clears `self._proto = None`. Nothing touches the
lost protocol's pending service requests and no stored continuation is
invoked. -/
def clientConnectionLost (fs : FactoryState) : FactoryState × List Effect :=
  ({ fs with proto := none }, [])

/-- `RosBridgeClientFactory.clientConnectionFailed` (comm.py lines
148-152): same shape as `clientConnectionLost`. -/
def clientConnectionFailed (fs : FactoryState) : FactoryState × List Effect :=
  ({ fs with proto := none }, [])

/-! ## pngcompression.py (src/roslibpy/comm/pngcompression.py) -/

/-- Value of one character of the standard base64 alphabet. -/
def b64Val (c : Char) : Option Nat :=
  if 'A' ≤ c ∧ c ≤ 'Z' then some (c.toNat - 65)
  else if 'a' ≤ c ∧ c ≤ 'z' then some (c.toNat - 97 + 26)
  else if '0' ≤ c ∧ c ≤ '9' then some (c.toNat - 48 + 52)
  else if c = '+' then some 62
  else if c = '/' then some 63
  else none

/-- Decode 4-character base64 groups (`'='` padding allowed in the final
group only) into bytes; `none` models `binascii.Error` on malformed
input. -/
def b64Groups : List Char → Option (List Nat)
  | [] => some []
  | [c1, c2, '=', '='] => do
      let v1 ← b64Val c1
      let v2 ← b64Val c2
      pure [v1 * 4 + v2 / 16]
  | [c1, c2, c3, '='] => do
      let v1 ← b64Val c1
      let v2 ← b64Val c2
      let v3 ← b64Val c3
      pure [v1 * 4 + v2 / 16, (v2 % 16) * 16 + v3 / 4]
  | c1 :: c2 :: c3 :: c4 :: rest => do
      let v1 ← b64Val c1
      let v2 ← b64Val c2
      let v3 ← b64Val c3
      let v4 ← b64Val c4
      let rest' ← b64Groups rest
      pure ([v1 * 4 + v2 / 16, (v2 % 16) * 16 + v3 / 4,
             (v3 % 4) * 64 + v4] ++ rest')
  | _ => none

/-- `base64.standard_b64decode` on a well-formed standard-alphabet input:
the decoded bytes, or `none` for a malformed string. -/
def standard_b64decode (s : String) : Option (List Nat) :=
  b64Groups s.data

/-- A UTF-8 continuation byte. -/
def isCont (b : Nat) : Bool := 128 ≤ b && b < 192

/-- Strict UTF-8 decoding, as `bytes.decode("utf-8")`: `none` models the
`UnicodeDecodeError` raised on invalid UTF-8. The `fuel` argument only
drives structural recursion; every recursive call consumes at least one
byte and one unit of fuel, so any `fuel ≥` length behaves identically
(the wrapper below passes the list's length). -/
def utf8DecodeAux : Nat → List Nat → Option (List Char)
  | _, [] => some []
  | fuel, b1 :: rest =>
    match fuel with
    | 0 => none
    | fuel + 1 =>
      if b1 < 128 then
        (utf8DecodeAux fuel rest).map (fun cs => Char.ofNat b1 :: cs)
      else if 194 ≤ b1 && b1 ≤ 223 then
        match rest with
        | b2 :: rest2 =>
            if isCont b2 then
              (utf8DecodeAux fuel rest2).map
                (fun cs => Char.ofNat ((b1 - 192) * 64 + (b2 - 128)) :: cs)
            else none
        | [] => none
      else if 224 ≤ b1 && b1 ≤ 239 then
        match rest with
        | b2 :: b3 :: rest2 =>
            if (if b1 = 224 then 160 else 128) ≤ b2 &&
               b2 ≤ (if b1 = 237 then 159 else 191) && isCont b3 then
              (utf8DecodeAux fuel rest2).map
                (fun cs => Char.ofNat
                  ((b1 - 224) * 4096 + (b2 - 128) * 64 + (b3 - 128)) :: cs)
            else none
        | _ => none
      else if 240 ≤ b1 && b1 ≤ 244 then
        match rest with
        | b2 :: b3 :: b4 :: rest2 =>
            if (if b1 = 240 then 144 else 128) ≤ b2 &&
               b2 ≤ (if b1 = 244 then 143 else 191) &&
               isCont b3 && isCont b4 then
              (utf8DecodeAux fuel rest2).map
                (fun cs => Char.ofNat
                  ((b1 - 240) * 262144 + (b2 - 128) * 4096 +
                   (b3 - 128) * 64 + (b4 - 128)) :: cs)
            else none
        | _ => none
      else none

/-- `bytes.decode("utf-8")` on a byte list. -/
def utf8DecodeBytes (bs : List Nat) : Option (List Char) :=
  utf8DecodeAux bs.length bs

/-- `pngcompression.decode_png` (pngcompression.py lines 7-12):
`standard_b64decode` the string, hand the bytes to the external PNG codec
(`PIL.Image.open` + `tobytes`, abstracted as the parameter `pil`, which
yields the raw pixel bytes of the decompressed image), then — the final
step of the source — UTF-8-decode those raw bytes into a text string with
`.decode("utf-8")`. -/
def decode_png (pil : List Nat → Option (List Nat)) (string : String) :
    Option String :=
  match standard_b64decode string with
  | none => none
  | some decoded =>
      match pil decoded with
      | none => none
      | some raw =>
          match utf8DecodeBytes raw with
          | none => none
          | some cs => some (String.mk cs)

/-- An external PNG codec whose decompressed image bytes are the single
byte `0xFF` (not valid UTF-8). -/
def pngRawFF : List Nat → Option (List Nat) := fun _ => some [255]

/-- An external PNG codec whose decompressed image bytes are
`[0xC3, 0xA9]`, the two-byte UTF-8 encoding of `é`. -/
def pngRawE9 : List Nat → Option (List Nat) := fun _ => some [195, 169]

/-! ## Small helpers used by the statements -/

/-- Does an effect invoke a stored service continuation? -/
def Effect.isContinuationCall : Effect → Bool
  | .invoked _ _ => true
  | _ => false

/-- Queue several callbacks through `on_ready` in order. -/
def queueReady (fs : FactoryState) (toks : List Nat) : FactoryState :=
  toks.foldl (fun f t => (on_ready f t).1) fs

/-! ## Example inputs used by the witnesses and counterexamples -/

/-- A protocol state with one pending service request under id `"1"`
(callback token 10, errback token 11). -/
def exSt1 : ProtocolState :=
  { pending := [(.str "1", { callback := some 10, errback := some 11 })]
    handlers := initialProtocolState.handlers }

/-- A successful service response for id `"1"`. -/
def exRespOk : Message :=
  [("op", .str "service_response"), ("id", .str "1"),
   ("result", .bool true), ("values", .str "ok")]

/-- A failure service response for id `"1"`. -/
def exRespFail : Message :=
  [("op", .str "service_response"), ("id", .str "1"),
   ("result", .bool false), ("values", .str "bad")]

/-- A service response whose id `"9"` is pending in no example state. -/
def exRespUnknown : Message :=
  [("op", .str "service_response"), ("id", .str "9"),
   ("result", .bool true), ("values", .str "x")]

/-- An inbound `call_service` request message. -/
def exCall : Message :=
  [("op", .str "call_service"), ("id", .str "7"),
   ("service", .str "/add_two_ints")]

/-- An outbound message with a value `json.dumps` cannot serialize. -/
def exBadMsg : Message :=
  [("op", .str "call_service"), ("id", .str "7"),
   ("args", .pyobj "socket")]

/-- A protocol state with a custom handler registered for op `"fancy"`
(callable token 42). -/
def exCustomState : ProtocolState :=
  (register_message_handlers initialProtocolState "fancy" (.custom 42)).state

/-- An inbound message for the custom op `"fancy"`. -/
def exCustomMsg : Message := [("op", .str "fancy")]

/-- An inbound message whose op has no registered handler. -/
def exUnknownOpMsg : Message := [("op", .str "fragment")]

/-- An inbound `call_service` message missing its `service` field. -/
def exCallNoService : Message := [("op", .str "call_service"), ("id", .str "7")]

/-- An outbound `call_service` request reusing the already-pending id
`"1"`. -/
def exCall1 : Message :=
  [("op", .str "call_service"), ("id", .str "1"), ("service", .str "/s")]

/-- An outbound `call_service` request with id `"1"` whose `args` value
`json.dumps` cannot serialize. -/
def exBadCall1 : Message :=
  [("op", .str "call_service"), ("id", .str "1"), ("args", .pyobj "socket")]

/-! ## Association-list dictionary lemmas -/

theorem dictGet_dictDel_self {α β : Type} [BEq α] (d : List (α × β)) (k : α) :
    dictGet (dictDel d k) k = none := by
  unfold dictGet dictDel
  have h : List.find? (fun p => p.1 == k)
      (List.filter (fun p => !(p.1 == k)) d) = none := by
    rw [List.find?_eq_none]
    intro x hx
    rcases List.mem_filter.mp hx with ⟨-, hpred⟩
    simp only [Bool.not_eq_true'] at hpred
    simp [hpred]
  rw [h]
  rfl

theorem find?_mapReplace {α β : Type} [BEq α] (d : List (α × β)) (k : α)
    (v : β) :
    List.find? (fun p => p.1 == k)
      (d.map (fun p => if p.1 == k then (p.1, v) else p)) =
    (List.find? (fun p => p.1 == k) d).map (fun p => (p.1, v)) := by
  induction d with
  | nil => rfl
  | cons p rest ih =>
    by_cases h : (p.1 == k) = true
    · simp [List.find?_cons, h]
    · simp only [Bool.not_eq_true] at h
      simp [List.find?_cons, h, ih]

theorem dictGet_dictSet_self {α β : Type} [BEq α] [LawfulBEq α]
    (d : List (α × β)) (k : α) (v : β) :
    dictGet (dictSet d k v) k = some v := by
  unfold dictGet dictSet
  by_cases h : (List.find? (fun p => p.1 == k) d).isSome
  · rw [if_pos h, find?_mapReplace]
    rcases Option.isSome_iff_exists.mp h with ⟨q, hq⟩
    rw [hq]
    rfl
  · rw [if_neg h, List.find?_append]
    rw [Option.not_isSome_iff_eq_none] at h
    rw [h]
    simp [List.find?_cons]

/-! ## Claims -/

/-- Claim C1: for every inbound `service_response` message whose id is currently
pending, the pending entry is removed from the registry (so a repeat of the
same message raises instead of resolving again — at-most-once delivery),
and dispatch follows the rule: when the field `result` is present and is
literally `false` the failure continuation is invoked with
`message.values`, otherwise the success continuation is invoked with
`ServiceResponse(message.values)`; an absent continuation makes that
branch a no-op. -/
theorem C1_service_response_consume_once
    (st : ProtocolState) (message : Message) (rid : JsonValue)
    (entry : PendingEntry) (v : JsonValue)
    (hid : msgGet message "id" = some rid)
    (hpend : dictGet st.pending rid = some entry)
    (hval : msgGet message "values" = some v) :
    (handle_service_response st message).state.pending =
      dictDel st.pending rid ∧
    dictGet (handle_service_response st message).state.pending rid = none ∧
    (handle_service_response st message).error = none ∧
    (msgGet message "result" = some (.bool false) →
      (handle_service_response st message).effects =
        (match entry.errback with
         | some eb => [.invoked eb (.failure v)]
         | none => [])) ∧
    (msgGet message "result" ≠ some (.bool false) →
      (handle_service_response st message).effects =
        (match entry.callback with
         | some cb => [.invoked cb (.success (.mk v))]
         | none => [])) ∧
    handle_service_response (handle_service_response st message).state
        message =
      { state := (handle_service_response st message).state
        effects := []
        error := some (.standardError
          "No handler registered for service request ID") } := by
  have hdel : dictGet (dictDel st.pending rid) rid = none :=
    dictGet_dictDel_self st.pending rid
  have hrerun :
      handle_service_response { st with pending := dictDel st.pending rid }
        message =
      { state := { st with pending := dictDel st.pending rid }
        effects := []
        error := some (.standardError
          "No handler registered for service request ID") } := by
    simp only [handle_service_response, hid, hdel]
  by_cases hres : msgGet message "result" = some (.bool false)
  · have hbeq : (msgGet message "result" == some (.bool false)) = true := by
      rw [hres]; exact beq_self_eq_true _
    cases heb : entry.errback with
    | none =>
        have heq : handle_service_response st message =
            { state := { st with pending := dictDel st.pending rid }
              effects := [], error := none } := by
          simp only [handle_service_response, hid, hpend, hbeq, if_true, heb]
        rw [heq]
        exact ⟨rfl, hdel, rfl, fun _ => rfl,
          fun hc => absurd hres hc, hrerun⟩
    | some eb =>
        have heq : handle_service_response st message =
            { state := { st with pending := dictDel st.pending rid }
              effects := [.invoked eb (.failure v)], error := none } := by
          simp only [handle_service_response, hid, hpend, hbeq, if_true, heb,
            hval]
        rw [heq]
        exact ⟨rfl, hdel, rfl, fun _ => rfl,
          fun hc => absurd hres hc, hrerun⟩
  · have hbeq : (msgGet message "result" == some (.bool false)) = false := by
      rw [beq_eq_false_iff_ne]
      exact hres
    cases hcb : entry.callback with
    | none =>
        have heq : handle_service_response st message =
            { state := { st with pending := dictDel st.pending rid }
              effects := [], error := none } := by
          simp only [handle_service_response, hid, hpend, hbeq,
            Bool.false_eq_true, if_false, hcb]
        rw [heq]
        exact ⟨rfl, hdel, rfl, fun hc => absurd hc hres,
          fun _ => rfl, hrerun⟩
    | some cb =>
        have heq : handle_service_response st message =
            { state := { st with pending := dictDel st.pending rid }
              effects := [.invoked cb (.success (.mk v))], error := none } := by
          simp only [handle_service_response, hid, hpend, hbeq,
            Bool.false_eq_true, if_false, hcb, hval]
        rw [heq]
        exact ⟨rfl, hdel, rfl, fun hc => absurd hc hres,
          fun _ => rfl, hrerun⟩

/-- Witness for C1: the hypotheses hold for the concrete state `exSt1` and
message `exRespOk`, and the theorem's key consequences evaluate there. -/
theorem C1_service_response_consume_once_witness :
    msgGet exRespOk "id" = some (.str "1") ∧
    dictGet exSt1.pending (.str "1") =
      some { callback := some 10, errback := some 11 } ∧
    msgGet exRespOk "values" = some (.str "ok") ∧
    dictGet (handle_service_response exSt1 exRespOk).state.pending
      (.str "1") = none ∧
    (handle_service_response exSt1 exRespOk).error = none :=
  ⟨rfl, rfl, rfl,
   (C1_service_response_consume_once exSt1 exRespOk (.str "1")
      { callback := some 10, errback := some 11 } (.str "ok")
      rfl rfl rfl).2.1,
   (C1_service_response_consume_once exSt1 exRespOk (.str "1")
      { callback := some 10, errback := some 11 } (.str "ok")
      rfl rfl rfl).2.2.1⟩

/-- Claim C10: handling a `service_response` whose id is not pending raises
before any mutation — the state (in particular the pending registry) is
returned exactly as it was, with no effect; and in general the pending
registry changes only on the matched-id path, where the change is exactly
the deletion of that id. -/
theorem C10_unmatched_response_no_mutation
    (st : ProtocolState) (m : Message) (rid : JsonValue)
    (hid : msgGet m "id" = some rid)
    (hnone : dictGet st.pending rid = none) :
    handle_service_response st m =
      { state := st, effects := []
        error := some (.standardError
          "No handler registered for service request ID") } ∧
    ∀ st' m', (handle_service_response st' m').state.pending ≠ st'.pending →
      ∃ rid' e', msgGet m' "id" = some rid' ∧
        dictGet st'.pending rid' = some e' ∧
        (handle_service_response st' m').state.pending =
          dictDel st'.pending rid' := by
  constructor
  · simp only [handle_service_response, hid, hnone]
  · intro st' m' hne
    cases hid' : msgGet m' "id" with
    | none =>
        exfalso
        apply hne
        simp [handle_service_response, hid']
    | some rid' =>
        cases hp : dictGet st'.pending rid' with
        | none =>
            exfalso
            apply hne
            simp [handle_service_response, hid', hp]
        | some e' =>
            refine ⟨rid', e', rfl, hp, ?_⟩
            simp only [handle_service_response, hid', hp]
            repeat' split
            all_goals rfl

/-- Witness for C10: a response for the unknown id `"9"` against `exSt1`
leaves the state untouched and raises. -/
theorem C10_unmatched_response_no_mutation_witness :
    msgGet exRespUnknown "id" = some (.str "9") ∧
    dictGet exSt1.pending (.str "9") = none ∧
    handle_service_response exSt1 exRespUnknown =
      { state := exSt1, effects := []
        error := some (.standardError
          "No handler registered for service request ID") } :=
  ⟨rfl, rfl,
   (C10_unmatched_response_no_mutation exSt1 exRespUnknown (.str "9")
      rfl rfl).1⟩

/-- Claim C6: for every decoded non-binary message whose op has a registered
handler, `onMessage` runs exactly that handler (and for a custom handler
the observable trace is exactly one invocation of it); for every decoded
message whose op has no registered handler, a `StandardError` is raised
rather than the frame being silently dropped. -/
theorem C6_dispatch_exactly_one_handler
    (st : ProtocolState) (m : Message) (op : JsonValue)
    (hop : msgGet m "op" = some op) :
    (∀ h, handlerLookup st.handlers op = some h →
      onMessage st m false = runHandler h st m) ∧
    (handlerLookup st.handlers op = none →
      onMessage st m false =
        { state := st, effects := []
          error := some (.standardError
            "No handler registered for operation") }) ∧
    (∀ tok, handlerLookup st.handlers op = some (.custom tok) →
      (onMessage st m false).effects = [.customHandlerRun tok m]) := by
  refine ⟨?_, ?_, ?_⟩
  · intro h hh
    simp only [onMessage, Bool.false_eq_true, if_false, hop, hh]
  · intro hn
    simp only [onMessage, Bool.false_eq_true, if_false, hop, hn]
  · intro tok hh
    simp only [onMessage, Bool.false_eq_true, if_false, hop, hh, runHandler]

/-- Witness for C6: dispatching op `"fancy"` in a state where callable 42
is registered for it runs exactly that callable once; an unregistered op
raises. -/
theorem C6_dispatch_exactly_one_handler_witness :
    msgGet exCustomMsg "op" = some (.str "fancy") ∧
    handlerLookup exCustomState.handlers (.str "fancy") =
      some (.custom 42) ∧
    (onMessage exCustomState exCustomMsg false).effects =
      [.customHandlerRun 42 exCustomMsg] ∧
    handlerLookup exCustomState.handlers (.str "fragment") = none ∧
    onMessage exCustomState exUnknownOpMsg false =
      { state := exCustomState, effects := []
        error := some (.standardError
          "No handler registered for operation") } :=
  ⟨rfl, rfl,
   (C6_dispatch_exactly_one_handler exCustomState exCustomMsg
      (.str "fancy") rfl).2.2 42 rfl,
   rfl,
   (C6_dispatch_exactly_one_handler exCustomState exUnknownOpMsg
      (.str "fragment") rfl).2.1 rfl⟩

/-- Claim C7: for every inbound `call_service` message, a missing `service`
field raises a `ValueError` (`MissingFieldError` in the spec's taxonomy),
and otherwise the *full* message is emitted on the channel named by
`message.service`. -/
theorem C7_call_service_emits_full_message
    (st : ProtocolState) (m : Message) :
    (msgGet m "service" = none →
      handle_service_request st m =
        { state := st, effects := []
          error := some (.valueError
            "Expected service name missing in service request") }) ∧
    (∀ s, msgGet m "service" = some s →
      handle_service_request st m =
        { state := st, effects := [.emittedMessage s m], error := none }) := by
  constructor
  · intro hn
    simp only [handle_service_request, hn]
  · intro s hs
    simp only [handle_service_request, hs]

/-- Witness for C7: `exCall` is emitted whole on its service channel;
`exCallNoService` raises. -/
theorem C7_call_service_emits_full_message_witness :
    msgGet exCall "service" = some (.str "/add_two_ints") ∧
    handle_service_request initialProtocolState exCall =
      { state := initialProtocolState
        effects := [.emittedMessage (.str "/add_two_ints") exCall]
        error := none } ∧
    msgGet exCallNoService "service" = none ∧
    handle_service_request initialProtocolState exCallNoService =
      { state := initialProtocolState, effects := []
        error := some (.valueError
          "Expected service name missing in service request") } :=
  ⟨rfl,
   (C7_call_service_emits_full_message initialProtocolState exCall).2
     (.str "/add_two_ints") rfl,
   rfl,
   (C7_call_service_emits_full_message initialProtocolState
     exCallNoService).1 rfl⟩

/-- Counterexample for C4: a `service_response` frame with unknown id
`"9"` is *not* logged and dropped — `onMessage` terminates with an
uncaught `StandardError` (raised by `_handle_service_response` and passed
through by `onMessage`, which has no try/except), and the effect trace
contains no log entry. -/
theorem C4_counterexample :
    (onMessage exSt1 exRespUnknown false).error =
      some (.standardError "No handler registered for service request ID") ∧
    (onMessage exSt1 exRespUnknown false).effects = [] := by
  constructor <;> rfl

/-- Claim C4 as amended: for every inbound `service_response` message whose id
has no entry in the registry, the handler raises a `StandardError` that
propagates uncaught out of `onMessage` (this code neither logs it nor
catches it; whether the connection survives is decided by the external
transport layer), and the error is isolated in the sense that the
protocol state is completely unchanged. -/
theorem C4_unmatched_response_raises_uncaught
    (st : ProtocolState) (m : Message) (rid : JsonValue)
    (hh : handlerLookup st.handlers (.str "service_response") =
      some .serviceResponseH)
    (hop : msgGet m "op" = some (.str "service_response"))
    (hid : msgGet m "id" = some rid)
    (hnone : dictGet st.pending rid = none) :
    onMessage st m false =
      { state := st, effects := []
        error := some (.standardError
          "No handler registered for service request ID") } := by
  simp only [onMessage, Bool.false_eq_true, if_false, hop, hh, runHandler,
    handle_service_response, hid, hnone]

/-- Witness for C4's amended theorem at the concrete state `exSt1` and
message `exRespUnknown`. -/
theorem C4_unmatched_response_raises_uncaught_witness :
    handlerLookup exSt1.handlers (.str "service_response") =
      some .serviceResponseH ∧
    msgGet exRespUnknown "op" = some (.str "service_response") ∧
    msgGet exRespUnknown "id" = some (.str "9") ∧
    dictGet exSt1.pending (.str "9") = none ∧
    onMessage exSt1 exRespUnknown false =
      { state := exSt1, effects := []
        error := some (.standardError
          "No handler registered for service request ID") } :=
  ⟨rfl, rfl, rfl, rfl,
   C4_unmatched_response_raises_uncaught exSt1 exRespUnknown (.str "9")
     rfl rfl rfl rfl⟩

/-- Counterexample for C5: for a message that cannot be represented in the
wire format, `send_ros_message` swallows the exception — the caller
observes no error at all; the failure is only logged. -/
theorem C5_counterexample :
    jsonDumpsMessage exBadMsg = none ∧
    send_ros_message initialProtocolState exBadMsg =
      { state := initialProtocolState
        effects := [.loggedException "Failed to send message"]
        error := none } :=
  ⟨rfl, rfl⟩

/-- Claim C5 as amended: `send` serializes the message and submits it as one
frame when it is representable; when it is not, the exception is caught
inside `send` and logged — the caller observes no error in either case
(and no session-presence check exists: the method raises no
`TransportUnavailable`-style error of its own). -/
theorem C5_send_swallows_encoding_errors
    (st : ProtocolState) (m : Message) :
    (send_ros_message st m).error = none ∧
    (send_ros_message st m).state = st ∧
    (∀ f, jsonDumpsMessage m = some f →
      (send_ros_message st m).effects = [.sentFrame f]) ∧
    (jsonDumpsMessage m = none →
      (send_ros_message st m).effects =
        [.loggedException "Failed to send message"]) := by
  cases h : jsonDumpsMessage m with
  | some f =>
      have heq : send_ros_message st m =
          { state := st, effects := [.sentFrame f], error := none } := by
        simp only [send_ros_message, h]
      rw [heq]
      refine ⟨rfl, rfl, fun f' hf' => ?_, fun hc => ?_⟩
      · cases hf'
        rfl
      · cases hc
  | none =>
      have heq : send_ros_message st m =
          { state := st
            effects := [.loggedException "Failed to send message"]
            error := none } := by
        simp only [send_ros_message, h]
      rw [heq]
      refine ⟨rfl, rfl, fun f' hf' => ?_, fun _ => rfl⟩
      cases hf'

/-- Witness for C5's amended theorem: the non-serializable `exBadMsg`
produces a log entry and no caller-visible error. -/
theorem C5_send_swallows_encoding_errors_witness :
    (send_ros_message initialProtocolState exBadMsg).error = none ∧
    jsonDumpsMessage exBadMsg = none ∧
    (send_ros_message initialProtocolState exBadMsg).effects =
      [.loggedException "Failed to send message"] :=
  ⟨(C5_send_swallows_encoding_errors initialProtocolState exBadMsg).1, rfl,
   (C5_send_swallows_encoding_errors initialProtocolState exBadMsg).2.2.2
     rfl⟩

/-- Counterexample for C3: with id `"1"` already pending (continuations
10/11), `send_ros_service_request` neither raises nor refuses — it
proceeds without error and silently overwrites the registry entry with the
new pair (20/21), discarding the previous waiter's continuations. -/
theorem C3_counterexample :
    dictGet exSt1.pending (.str "1") =
      some { callback := some 10, errback := some 11 } ∧
    (send_ros_service_request exSt1 exCall1 (some 20) (some 21)).error =
      none ∧
    dictGet (send_ros_service_request exSt1 exCall1
      (some 20) (some 21)).state.pending (.str "1") =
      some { callback := some 20, errback := some 21 } := by
  refine ⟨rfl, rfl, by decide⟩

/-- Claim C3 as amended: `send_ros_service_request` registers the pending record
under `message.id` strictly before transmitting — the registration is in
place even when serialization fails and no frame is ever sent; a missing
`message.id` raises `KeyError`; but an id that is already pending is *not*
rejected: the previous entry is silently overwritten and the call
proceeds. -/
theorem C3_registration_precedes_send
    (st : ProtocolState) (m : Message) (cb eb : Option Nat) :
    (msgGet m "id" = none →
      send_ros_service_request st m cb eb =
        { state := st, effects := [], error := some (.keyError "id") }) ∧
    (∀ rid, msgGet m "id" = some rid →
      dictGet (send_ros_service_request st m cb eb).state.pending rid =
        some { callback := cb, errback := eb } ∧
      (jsonDumpsMessage m = none →
        (send_ros_service_request st m cb eb).effects = [] ∧
        (send_ros_service_request st m cb eb).error =
          some (.typeError "not JSON serializable")) ∧
      (∀ f, jsonDumpsMessage m = some f →
        (send_ros_service_request st m cb eb).effects = [.sentFrame f] ∧
        (send_ros_service_request st m cb eb).error = none)) := by
  constructor
  · intro hn
    simp only [send_ros_service_request, hn]
  · intro rid hrid
    cases hj : jsonDumpsMessage m with
    | some f =>
        have heq : send_ros_service_request st m cb eb =
            { state := { st with
                pending := dictSet st.pending rid ⟨cb, eb⟩ }
              effects := [.sentFrame f], error := none } := by
          simp only [send_ros_service_request, hrid, hj]
        rw [heq]
        refine ⟨dictGet_dictSet_self st.pending rid ⟨cb, eb⟩,
          fun hc => ?_, fun f' hf' => ?_⟩
        · cases hc
        · cases hf'
          exact ⟨rfl, rfl⟩
    | none =>
        have heq : send_ros_service_request st m cb eb =
            { state := { st with
                pending := dictSet st.pending rid ⟨cb, eb⟩ }
              effects := []
              error := some (.typeError "not JSON serializable") } := by
          simp only [send_ros_service_request, hrid, hj]
        rw [heq]
        refine ⟨dictGet_dictSet_self st.pending rid ⟨cb, eb⟩,
          fun _ => ⟨rfl, rfl⟩, fun f' hf' => ?_⟩
        cases hf'

/-- Witness for C3's amended theorem: sending `exBadCall1` (id `"1"`,
unserializable payload) registers the pending entry even though
serialization fails and no frame is sent. -/
theorem C3_registration_precedes_send_witness :
    msgGet exBadCall1 "id" = some (.str "1") ∧
    jsonDumpsMessage exBadCall1 = none ∧
    dictGet (send_ros_service_request initialProtocolState exBadCall1
      (some 20) (some 21)).state.pending (.str "1") =
      some { callback := some 20, errback := some 21 } ∧
    (send_ros_service_request initialProtocolState exBadCall1
      (some 20) (some 21)).effects = [] :=
  ⟨rfl, rfl,
   ((C3_registration_precedes_send initialProtocolState exBadCall1
      (some 20) (some 21)).2 (.str "1") rfl).1,
   (((C3_registration_precedes_send initialProtocolState exBadCall1
      (some 20) (some 21)).2 (.str "1") rfl).2.1 rfl).1⟩

/-- Counterexample for C2: with one pending service request, the
disconnect path (`onClose` on the protocol, `clientConnectionLost` on the
factory) invokes zero failure continuations — not exactly one — and the
pending entry is left unresolved in the discarded protocol state. -/
theorem C2_counterexample :
    exSt1.pending ≠ [] ∧
    (onClose exSt1).effects = [] ∧
    (onClose exSt1).state = exSt1 ∧
    (clientConnectionLost { proto := some exSt1, listeners := [] }).2 = [] ∧
    (clientConnectionLost
      { proto := some exSt1, listeners := [] }).1.proto = none := by
  refine ⟨by decide, rfl, rfl, rfl, rfl⟩

/-- Claim C2 as amended: on a disconnect event the code only logs and clears the
session handle; no pending request's failure continuation is invoked (for
any number of pending requests, zero failure continuations fire), and the
pending entries are discarded unresolved together with the protocol
instance — the next connection starts from a fresh registry. -/
theorem C2_disconnect_fires_no_continuations
    (st : ProtocolState) (fs : FactoryState) :
    onClose st = { state := st, effects := [], error := none } ∧
    (onClose st).effects.filter Effect.isContinuationCall = [] ∧
    clientConnectionLost fs = ({ fs with proto := none }, []) ∧
    (clientConnectionLost fs).2.filter Effect.isContinuationCall = [] ∧
    initialProtocolState.pending = [] :=
  ⟨rfl, rfl, rfl, rfl, rfl⟩

/-- Queuing callbacks through `on_ready` while no session is open leaves
the session handle absent and appends each callback, in order, as a
one-shot listener on the `ready` channel. -/
theorem queueReady_spec (toks : List Nat) :
    ∀ fs : FactoryState, fs.proto = none →
      (queueReady fs toks).proto = none ∧
      channelListeners (queueReady fs toks) "ready" =
        channelListeners fs "ready" ++
          toks.map (fun t => { token := t, oneShot := true }) := by
  induction toks with
  | nil =>
      intro fs h
      exact ⟨h, by simp [queueReady]⟩
  | cons t rest ih =>
      intro fs h
      have hstep : queueReady fs (t :: rest) =
          queueReady (once fs "ready" t) rest := by
        simp [queueReady, on_ready, h]
      have h1 : (once fs "ready" t).proto = none := by
        simp [once, h]
      have h2 : channelListeners (once fs "ready" t) "ready" =
          channelListeners fs "ready" ++ [{ token := t, oneShot := true }] := by
        simp [once, channelListeners, dictGet_dictSet_self]
      obtain ⟨ha, hb⟩ := ih (once fs "ready" t) h1
      rw [hstep]
      refine ⟨ha, ?_⟩
      rw [hb, h2, List.append_assoc]
      rfl

/-- A list of one-shot listeners is fully removed by the post-emission
filter. -/
theorem filter_oneShot_map (toks : List Nat) :
    (toks.map (fun t => ({ token := t, oneShot := true } : Listener))).filter
      (fun l => !l.oneShot) = [] := by
  induction toks with
  | nil => rfl
  | cons t rest ih =>
      simp only [List.map_cons, List.filter_cons, Bool.not_true,
        Bool.false_eq_true, if_false]
      exact ih

/-- Claim C8 (with `EventEmitterMixin` modelled from the spec): `on_ready`
invokes the callback immediately when a session is open; otherwise it
queues the callback as a one-shot listener for the next Open transition;
the Open transition (`ready`) produces exactly one `ready` emission,
observed exactly once by every queued callback in order, after which the
queued one-shot callbacks are cleared (a later emission reaches none of
them) and later `on_ready` calls fire immediately. -/
theorem C8_on_ready_queue_then_fire_once
    (fs : FactoryState) (p : ProtocolState) (toks : List Nat) (cb : Nat)
    (hproto : fs.proto = none)
    (hready : channelListeners fs "ready" = []) :
    (queueReady fs toks).proto = none ∧
    channelListeners (queueReady fs toks) "ready" =
      toks.map (fun t => { token := t, oneShot := true }) ∧
    (ready (queueReady fs toks) p).2 =
      toks.map (fun t => .listenerCalled t) ∧
    (ready (queueReady fs toks) p).1.proto = some p ∧
    channelListeners (ready (queueReady fs toks) p).1 "ready" = [] ∧
    on_ready (ready (queueReady fs toks) p).1 cb =
      ((ready (queueReady fs toks) p).1, [.listenerCalled cb]) ∧
    (emitChannel (ready (queueReady fs toks) p).1 "ready").2 = [] := by
  obtain ⟨h1, h2⟩ := queueReady_spec toks fs hproto
  rw [hready] at h2
  simp only [List.nil_append] at h2
  have hsame : channelListeners
      { queueReady fs toks with proto := some p } "ready" =
      channelListeners (queueReady fs toks) "ready" := rfl
  have hfil := filter_oneShot_map toks
  have hemit2 : (ready (queueReady fs toks) p).2 =
      toks.map (fun t => .listenerCalled t) := by
    simp only [ready, emitChannel, hsame, h2, List.map_map]
    rfl
  have hl : (ready (queueReady fs toks) p).1.listeners =
      dictSet (queueReady fs toks).listeners "ready"
        ((channelListeners (queueReady fs toks) "ready").filter
          (fun l => !l.oneShot)) := rfl
  have hlist : channelListeners (ready (queueReady fs toks) p).1 "ready" =
      [] := by
    simp only [channelListeners]
    rw [hl, dictGet_dictSet_self, Option.getD_some, h2]
    exact hfil
  have hp1 : (ready (queueReady fs toks) p).1.proto = some p := rfl
  refine ⟨h1, h2, hemit2, hp1, hlist, rfl, ?_⟩
  simp only [emitChannel, hlist]
  rfl

/-- Witness for C8: from a fresh factory, queuing callbacks 5 and 6 and
then opening a session fires both exactly once in order, clears the
queue, and makes a later `on_ready` (callback 9) fire immediately. -/
theorem C8_on_ready_queue_then_fire_once_witness :
    initialFactoryState.proto = none ∧
    channelListeners initialFactoryState "ready" = [] ∧
    (ready (queueReady initialFactoryState [5, 6]) initialProtocolState).2 =
      [.listenerCalled 5, .listenerCalled 6] ∧
    channelListeners
      (ready (queueReady initialFactoryState [5, 6])
        initialProtocolState).1 "ready" = [] ∧
    on_ready (ready (queueReady initialFactoryState [5, 6])
        initialProtocolState).1 9 =
      ((ready (queueReady initialFactoryState [5, 6])
        initialProtocolState).1, [.listenerCalled 9]) :=
  ⟨rfl, rfl,
   (C8_on_ready_queue_then_fire_once initialFactoryState
      initialProtocolState [5, 6] 9 rfl rfl).2.2.1,
   (C8_on_ready_queue_then_fire_once initialFactoryState
      initialProtocolState [5, 6] 9 rfl rfl).2.2.2.2.1,
   (C8_on_ready_queue_then_fire_once initialFactoryState
      initialProtocolState [5, 6] 9 rfl rfl).2.2.2.2.2.1⟩

/-- A byte list that is entirely ASCII decodes (at any sufficient fuel) to
exactly those bytes as characters. -/
theorem utf8DecodeAux_ascii (raw : List Nat) :
    (∀ b ∈ raw, b < 128) → ∀ fuel, raw.length ≤ fuel →
    utf8DecodeAux fuel raw = some (raw.map Char.ofNat) := by
  induction raw with
  | nil =>
      intro _ fuel _
      cases fuel <;> rfl
  | cons b rest ih =>
      intro h fuel hlen
      cases fuel with
      | zero => simp at hlen
      | succ f =>
          have hb : b < 128 := h b (by simp)
          have hrest := ih (fun x hx => h x (List.mem_cons_of_mem _ hx)) f
            (by simpa using hlen)
          simp only [utf8DecodeAux]
          rw [if_pos hb, hrest]
          rfl

/-- A byte list that is entirely ASCII decodes to exactly those bytes as
characters. -/
theorem utf8DecodeBytes_ascii (raw : List Nat) (h : ∀ b ∈ raw, b < 128) :
    utf8DecodeBytes raw = some (raw.map Char.ofNat) :=
  utf8DecodeAux_ascii raw h raw.length (Nat.le_refl _)

/-- Counterexample for C9: the codec does *not* return the raw decoded
bytes. For the valid base64 input `"QUJD"` and a PNG whose decompressed
raw bytes are `[0xFF]`, `decode_png` fails outright (the final
`.decode("utf-8")` of the source rejects non-UTF-8 bytes) even though the
raw bytes exist; and for a PNG whose raw bytes are the two bytes
`[0xC3, 0xA9]`, the result is the one-character *text* value `"é"` — a
UTF-8 transformation of the bytes, not the bytes themselves. -/
theorem C9_counterexample :
    standard_b64decode "QUJD" = some [65, 66, 67] ∧
    pngRawFF [65, 66, 67] = some [255] ∧
    decode_png pngRawFF "QUJD" = none ∧
    pngRawE9 [65, 66, 67] = some [195, 169] ∧
    decode_png pngRawE9 "QUJD" = some "é" := by
  refine ⟨by decide, rfl, by decide, rfl, by decide⟩

/-- Claim C9 as amended: `decode_png` base64-decodes its input, hands the bytes
to the external PNG codec, and returns the decompressed raw bytes pushed
through a strict UTF-8 *text* decode: the result is the UTF-8 decoding of
the raw bytes (failing when they are not valid UTF-8), and on all-ASCII
raw bytes it is the text whose characters are exactly those byte
values. -/
theorem C9_decode_png_returns_text
    (pil : List Nat → Option (List Nat)) (s : String) (d raw : List Nat)
    (h1 : standard_b64decode s = some d)
    (h2 : pil d = some raw) :
    decode_png pil s =
      (utf8DecodeBytes raw).map (fun cs => String.mk cs) ∧
    ((∀ b ∈ raw, b < 128) →
      decode_png pil s = some (String.mk (raw.map Char.ofNat))) := by
  have hmain : decode_png pil s =
      (utf8DecodeBytes raw).map (fun cs => String.mk cs) := by
    simp only [decode_png, h1, h2]
    cases utf8DecodeBytes raw <;> rfl
  refine ⟨hmain, fun hascii => ?_⟩
  rw [hmain, utf8DecodeBytes_ascii raw hascii]
  rfl

/-- Witness for C9's amended theorem at the base64 input `"QUJD"` and the
two-byte PNG payload `[0xC3, 0xA9]`. -/
theorem C9_decode_png_returns_text_witness :
    standard_b64decode "QUJD" = some [65, 66, 67] ∧
    pngRawE9 [65, 66, 67] = some [195, 169] ∧
    decode_png pngRawE9 "QUJD" =
      (utf8DecodeBytes [195, 169]).map (fun cs => String.mk cs) :=
  ⟨by decide, rfl,
   (C9_decode_png_returns_text pngRawE9 "QUJD" [65, 66, 67] [195, 169]
      (by decide) rfl).1⟩
